import Mathlib

/-!
Shallow embedding of the Express/Mongoose backend in `src/app.js`
(a small REST service over a single `Transaction` collection), together
with theorems settling the specification claims about it.

Modelling conventions:
* A MongoDB collection is a `List Transaction` (`Db`).
* JavaScript `Date` values are timestamps (`Int`, milliseconds); the
  parsing function `new Date(string)` is an opaque collaborator and is
  passed around as a parameter `parse : String → Int`.
* JavaScript numbers (prices) are modelled as `ℚ`; `Number.MAX_VALUE`
  is the exact rational value of the largest finite double.
* Regular-expression matching (`$regex` with `$options`) is opaque and
  passed as a parameter `rmatch : String → String → String → Bool`
  (pattern, options, subject).  the documented semantics of MongoDB that a
  `$regex` clause only ever matches *string* field values is captured by
  `regexFieldMatch` over a `BsonValue`.
* Asynchronous handlers that `await` database calls are modelled, for
  the error-flow claims, as functions of the `Except`-valued outcomes of
  those calls; `try/catch` becomes a `match` on the combined outcome.
-/

/-- A stored sales record (the Mongoose `Transaction` model):
title, description, price, dateOfSale, category, sold. -/
structure Transaction where
  title : String
  description : String
  price : ℚ
  dateOfSale : Int
  category : String
  sold : Bool
deriving Repr, DecidableEq

/-- The database state: the list of stored transactions. -/
abbrev Db := List Transaction

/-- A BSON field value, as far as the `$regex` semantics needs:
either a string or a number. -/
inductive BsonValue where
  | str (s : String)
  | num (q : ℚ)
deriving Repr, DecidableEq

/-- MongoDB `$regex` semantics on a field: a regular expression matches
a field value only when the value is a string; against a number the
clause never matches.  `rmatch pat opts subject` is the opaque regex
engine. -/
def regexFieldMatch (rmatch : String → String → String → Bool)
    (pat : String) (opts : String) (v : BsonValue) : Bool :=
  match v with
  | .str s => rmatch pat opts s
  | .num _ => false

/-- `lo ≤ t && t < hi`: the meaning of a
`{ $gte: lo, $lt: hi }` range condition on a date field. -/
def dateRangeMatch (lo hi : Int) (t : Int) : Bool :=
  decide (lo ≤ t) && decide (t < hi)

/-- The month filter built by every query endpoint:
`{ dateOfSale: { $gte: new Date(month), $lt: new Date(month) } }`.
Both bounds are the same expression `new Date(month)`. -/
def monthQuery (parse : String → Int) (month : String) (t : Int) : Bool :=
  dateRangeMatch (parse month) (parse month) t

/-- `countDocuments(q)` over the modelled collection. -/
def countDocuments (q : Transaction → Bool) (db : Db) : Nat :=
  (db.filter q).length

/-- The `aggregate([{ $match: q }, { $group: { _id: null, total: { $sum: price } } }])`
pipeline: no output document when nothing matches, otherwise a single
document holding the sum of the prices of the matching records. -/
def aggregateSumPrice (q : Transaction → Bool) (db : Db) : List ℚ :=
  if (db.filter q).isEmpty then []
  else [((db.filter q).map (fun t => t.price)).sum]

/-- The `aggregate([{ $match: q }, { $group: { _id: category, count: { $sum: 1 } } }])`
pipeline: one `(category, count)` pair per distinct category among the
matching records. -/
def aggregateByCategory (q : Transaction → Bool) (db : Db) : List (String × Nat) :=
  let matched := db.filter q
  ((matched.map (fun t => t.category)).dedup).map
    (fun c => (c, (matched.filter (fun t => t.category = c)).length))

/-- The filter of `GET /transactions`: the month filter, and — only when
`search` is non-empty (JavaScript truthiness of the string) — an `$or`
of case-insensitive regex clauses over title, description and price. -/
def transactionsQuery (rmatch : String → String → String → Bool)
    (parse : String → Int) (search month : String) (t : Transaction) : Bool :=
  monthQuery parse month t.dateOfSale &&
    (if search = "" then true
     else
       regexFieldMatch rmatch search "i" (.str t.title) ||
       regexFieldMatch rmatch search "i" (.str t.description) ||
       regexFieldMatch rmatch search "i" (.num t.price))

/-- `GET /transactions` with explicit parameters:
`find(query).skip((page - 1) * perPage).limit(perPage)`. -/
def getTransactions (rmatch : String → String → String → Bool)
    (parse : String → Int) (page perPage : ℕ) (search month : String)
    (db : Db) : List Transaction :=
  (((db.filter (transactionsQuery rmatch parse search month)).drop
      ((page - 1) * perPage)).take perPage)

/-- `GET /transactions` as requested over HTTP: absent query parameters
default to `page = 1`, `perPage = 10`, `search` the empty string. -/
def getTransactionsReq (rmatch : String → String → String → Bool)
    (parse : String → Int) (page? perPage? : Option ℕ) (search? : Option String)
    (month : String) (db : Db) : List Transaction :=
  getTransactions rmatch parse (page?.getD 1) (perPage?.getD 10)
    (search?.getD "") month db

/-- The statistics record returned by `GET /statistics`. -/
structure Statistics where
  totalSaleAmount : ℚ
  totalSoldItems : ℕ
  totalNotSoldItems : ℕ
deriving Repr, DecidableEq

/-- `GET /statistics`: total sale amount via the sum aggregate
(`totalSaleAmount[0]?.total || 0`), then two `countDocuments` calls
with `sold: true` and `sold: false` added to the month filter. -/
def getStatistics (parse : String → Int) (month : String) (db : Db) : Statistics :=
  let q := fun t : Transaction => monthQuery parse month t.dateOfSale
  { totalSaleAmount := (aggregateSumPrice q db).head?.getD 0
    totalSoldItems := countDocuments (fun t => q t && t.sold) db
    totalNotSoldItems := countDocuments (fun t => q t && !t.sold) db }

/-- The exact rational value of `Number.MAX_VALUE`
(the largest finite IEEE-754 double). -/
def numberMaxValue : ℚ := (2 ^ 53 - 1) * 2 ^ 971

/-- The fixed bucket table of `GET /barchart` and `GET /alldata`:
label, `min`, and `max` where `none` stands for `Infinity`. -/
def priceRanges : List (String × ℚ × Option ℚ) :=
  [("0-100", 0, some 100),
   ("101-200", 101, some 200),
   ("201-300", 201, some 300),
   ("301-400", 301, some 400),
   ("401-500", 401, some 500),
   ("501-600", 501, some 600),
   ("601-700", 601, some 700),
   ("701-800", 701, some 800),
   ("801-900", 801, some 900),
   ("901-above", 901, none)]

/-- One iteration of the bar-chart loop: count the records matching the
month filter whose price satisfies
`{ $gte: min, $lt: max === Infinity ? Number.MAX_VALUE : max }`. -/
def barChartEntry (parse : String → Int) (month : String) (db : Db)
    (r : String × ℚ × Option ℚ) : String × Nat :=
  let hi := r.2.2.getD numberMaxValue
  (r.1, countDocuments
    (fun t => monthQuery parse month t.dateOfSale &&
      (decide (r.2.1 ≤ t.price) && decide (t.price < hi))) db)

/-- `GET /barchart`: the fixed loop of ten independent count queries. -/
def getBarChart (parse : String → Int) (month : String) (db : Db) :
    List (String × Nat) :=
  priceRanges.map (barChartEntry parse month db)

/-- `GET /piechart`: counts grouped by category over the month filter. -/
def getPieChart (parse : String → Int) (month : String) (db : Db) :
    List (String × Nat) :=
  aggregateByCategory (fun t => monthQuery parse month t.dateOfSale) db

/-- The composite response of `GET /alldata`. -/
structure AllData where
  transactions : List Transaction
  statistics : Statistics
  barChart : List (String × Nat)
  pieChart : List (String × Nat)
deriving Repr, DecidableEq

/-- `GET /alldata`: its own copies of the four queries.  The listing is
an unpaginated `find` on the month filter; `totalSaleAmount`, the bar
chart and the pie chart repeat the individual endpoints verbatim; but
the two sold counts use the distinct upper bound
`new Date(month + "-31T23:59:59.999Z")` in place of `new Date(month)`. -/
def getAllData (parse : String → Int) (month : String) (db : Db) : AllData :=
  let q := fun t : Transaction => monthQuery parse month t.dateOfSale
  let soldQ := fun t : Transaction =>
    dateRangeMatch (parse month) (parse (month ++ "-31T23:59:59.999Z")) t.dateOfSale
  { transactions := db.filter q
    statistics :=
      { totalSaleAmount := (aggregateSumPrice q db).head?.getD 0
        totalSoldItems := countDocuments (fun t => soldQ t && t.sold) db
        totalNotSoldItems := countDocuments (fun t => soldQ t && !t.sold) db }
    barChart := priceRanges.map (barChartEntry parse month db)
    pieChart := aggregateByCategory q db }

/-- One item of the remote JSON array fetched by `GET /seed`:
the fields the handler reads off each item, with `dateOfSale` still a
string (it is parsed by `new Date(item.dateOfSale)` at store time). -/
structure SeedItem where
  title : String
  description : String
  price : ℚ
  dateOfSale : String
  category : String
  sold : Bool
deriving Repr, DecidableEq

/-- The record built from one remote item by the seed loop:
`new Transaction({ title, description, price, dateOfSale: new Date(...), category, sold })`. -/
def itemToTransaction (parse : String → Int) (it : SeedItem) : Transaction :=
  { title := it.title
    description := it.description
    price := it.price
    dateOfSale := parse it.dateOfSale
    category := it.category
    sold := it.sold }

/-- A database operation issued by a handler. -/
inductive DbOp where
  | find (q : Transaction → Bool)
  | countDocs (q : Transaction → Bool)
  | aggregate
  | deleteManyAll
  | save (t : Transaction)

/-- Effect of one operation on the stored collection: `find`,
`countDocuments` and `aggregate` are reads and leave it unchanged,
`deleteMany({})` empties it, `save` appends the new record. -/
def applyOp (db : Db) : DbOp → Db
  | .find _ => db
  | .countDocs _ => db
  | .aggregate => db
  | .deleteManyAll => []
  | .save t => db ++ [t]

/-- Run the sequence a handler issues of database operations. -/
def runOps (ops : List DbOp) (db : Db) : Db :=
  ops.foldl applyOp db

/-- Operations issued by `GET /seed` on data `data`:
`deleteMany({})`, then one `save` per remote item, in order. -/
def seedOps (parse : String → Int) (data : List SeedItem) : List DbOp :=
  .deleteManyAll :: data.map (fun it => .save (itemToTransaction parse it))

/-- The stored collection after a successful `GET /seed`. -/
def seedDb (parse : String → Int) (data : List SeedItem) (db : Db) : Db :=
  runOps (seedOps parse data) db

/-- Operations issued by `GET /transactions`: a single `find`. -/
def transactionsOps (rmatch : String → String → String → Bool)
    (parse : String → Int) (search month : String) : List DbOp :=
  [.find (transactionsQuery rmatch parse search month)]

/-- Operations issued by `GET /statistics`: the sum aggregate and the
two sold/unsold counts. -/
def statisticsOps (parse : String → Int) (month : String) : List DbOp :=
  [.aggregate,
   .countDocs (fun t => monthQuery parse month t.dateOfSale && t.sold),
   .countDocs (fun t => monthQuery parse month t.dateOfSale && !t.sold)]

/-- Operations issued by `GET /barchart`: one count per price bucket. -/
def barChartOps (parse : String → Int) (month : String) : List DbOp :=
  priceRanges.map (fun r =>
    .countDocs (fun t => monthQuery parse month t.dateOfSale &&
      (decide (r.2.1 ≤ t.price) && decide (t.price < r.2.2.getD numberMaxValue))))

/-- Operations issued by `GET /piechart`: the category aggregate. -/
def pieChartOps : List DbOp := [.aggregate]

/-- Operations issued by `GET /alldata`: its own find, sum aggregate,
two counts, ten bucket counts and category aggregate. -/
def allDataOps (parse : String → Int) (month : String) : List DbOp :=
  [.find (fun t => monthQuery parse month t.dateOfSale),
   .aggregate,
   .countDocs (fun t =>
     dateRangeMatch (parse month) (parse (month ++ "-31T23:59:59.999Z"))
       t.dateOfSale && t.sold),
   .countDocs (fun t =>
     dateRangeMatch (parse month) (parse (month ++ "-31T23:59:59.999Z"))
       t.dateOfSale && !t.sold)] ++
  barChartOps parse month ++ [.aggregate]

/-- An HTTP response, reduced to status code and a body string (for the
error-flow claims the body is the exception message or the fixed
success message). -/
structure HttpResponse where
  status : ℕ
  body : String
deriving Repr, DecidableEq

/-- The response of `GET /seed` as a function of the outcome of the
awaited remote fetch and of the awaited database writes: the
`try/catch` turns any rejection into a 500 response carrying the
message of the exception, otherwise the success message is returned. -/
def seedResponse (fetch : Except String (List SeedItem))
    (writes : Except String Unit) : HttpResponse :=
  match (do let d ← fetch; writes; pure d : Except String (List SeedItem)) with
  | .error e => ⟨500, e⟩
  | .ok _ => ⟨200, "Database seeded successfully!"⟩

/-- The response of `GET /transactions` as a function of the awaited
`find`: no `try/catch`, a rejection propagates. -/
def transactionsResponseE (find : Except String (List Transaction)) :
    Except String (List Transaction) := do
  let ts ← find
  pure ts

/-- The response of `GET /statistics` as a function of its three awaited
calls, in program order: no `try/catch`, the first rejection
propagates. -/
def statisticsResponseE (agg : Except String (List ℚ))
    (soldCount notSoldCount : Except String ℕ) : Except String Statistics := do
  let a ← agg
  let s ← soldCount
  let n ← notSoldCount
  pure ⟨a.head?.getD 0, s, n⟩

/-- The response of `GET /barchart` as a function of the ten awaited
counts, in loop order: no `try/catch`, the first rejection
propagates. -/
def barChartResponseE (counts : List (Except String ℕ)) :
    Except String (List ℕ) :=
  counts.foldr (fun c acc => do
    let n ← c
    let ns ← acc
    pure (n :: ns)) (pure [])

/-- The response of `GET /piechart` as a function of the awaited
aggregate: no `try/catch`, a rejection propagates. -/
def pieChartResponseE (agg : Except String (List (String × Nat))) :
    Except String (List (String × Nat)) := do
  let cs ← agg
  pure cs

/-- The response of `GET /alldata` as a function of its awaited calls,
in program order: no `try/catch`, the first rejection propagates. -/
def allDataResponseE (find : Except String (List Transaction))
    (agg : Except String (List ℚ)) (soldCount notSoldCount : Except String ℕ)
    (barCounts : List (Except String ℕ))
    (catAgg : Except String (List (String × Nat))) : Except String AllData := do
  let ts ← find
  let a ← agg
  let s ← soldCount
  let n ← notSoldCount
  let bs ← barChartResponseE barCounts
  let cs ← catAgg
  pure ⟨ts, ⟨a.head?.getD 0, s, n⟩, (priceRanges.map (fun r => r.1)).zip bs, cs⟩

/-! ## Helper lemmas -/

/-- The range condition with equal bounds never holds. -/
theorem dateRangeMatch_self (b t : Int) : dateRangeMatch b b t = false := by
  simp [dateRangeMatch]

/-- The month filter never holds (both bounds are the same date). -/
theorem monthFilter_false (parse : String → Int) (month : String) (t : Int) :
    monthQuery parse month t = false := by
  simp [monthQuery, dateRangeMatch_self]

/-- Filtering with an always-false predicate yields the empty list. -/
theorem filter_false_nil (db : Db) (q : Transaction → Bool)
    (h : ∀ t, q t = false) : db.filter q = [] := by
  induction db with
  | nil => rfl
  | cons a l ih => simp [List.filter_cons, h a, ih]

/-- Filtering on the bare month filter yields the empty list. -/
theorem month_filter_nil (parse : String → Int) (month : String) (db : Db) :
    db.filter (fun t => monthQuery parse month t.dateOfSale) = [] :=
  filter_false_nil db _ (fun t => monthFilter_false parse month t.dateOfSale)

/-- Filtering on the month filter conjoined with anything yields the
empty list. -/
theorem monthAnd_filter_nil (parse : String → Int) (month : String)
    (g : Transaction → Bool) (db : Db) :
    db.filter (fun t => monthQuery parse month t.dateOfSale && g t) = [] :=
  filter_false_nil db _ (fun t => by simp [monthFilter_false])

/-- The transactions filter never holds. -/
theorem transactionsQuery_false (rmatch : String → String → String → Bool)
    (parse : String → Int) (search month : String) (t : Transaction) :
    transactionsQuery rmatch parse search month t = false := by
  simp [transactionsQuery, monthFilter_false]

/-- Unfolding one step of `runOps`. -/
theorem runOps_cons (op : DbOp) (ops : List DbOp) (db : Db) :
    runOps (op :: ops) db = runOps ops (applyOp db op) := rfl

/-- Running the save operations of the seed loop appends the converted
items in order. -/
theorem runOps_saves (parse : String → Int) (l : List SeedItem) (acc : Db) :
    runOps (l.map (fun it => DbOp.save (itemToTransaction parse it))) acc
      = acc ++ l.map (itemToTransaction parse) := by
  induction l generalizing acc with
  | nil => simp [runOps]
  | cons a l ih =>
      rw [List.map_cons, runOps_cons]
      show runOps _ (acc ++ [itemToTransaction parse a]) = _
      rw [ih]
      simp

/-! ## Claims -/

/-- Claim C2: the month-scoped filter used by the query endpoints puts
the same date `new Date(month)` as both the lower and the upper bound
on `dateOfSale`, so it matches no transaction at all, for every month
string, every date parser, and every stored record. -/
theorem claim_month_filter_matches_nothing :
    ∀ (parse : String → Int) (month : String) (t : Int),
      monthQuery parse month t = false :=
  monthFilter_false

/-- Claim C3: after a successful seed, the stored set is exactly one
record per fetched item, carrying title, description, price, the parsed
dateOfSale, category and sold of that item, and nothing of the previous
database state survives (bulk replace). -/
theorem claim_seed_bulk_replace (parse : String → Int)
    (data : List SeedItem) (db : Db) :
    seedDb parse data db = data.map (itemToTransaction parse) := by
  rw [seedDb, seedOps, runOps_cons]
  show runOps _ ([] : Db) = _
  rw [runOps_saves]
  simp

/-- Claim C8: every endpoint except seed leaves the stored transaction
set unchanged: the operation traces of the five query endpoints are
pure reads. -/
theorem claim_query_endpoints_preserve_db
    (rmatch : String → String → String → Bool) (parse : String → Int)
    (search month : String) (db : Db) :
    runOps (transactionsOps rmatch parse search month) db = db ∧
    runOps (statisticsOps parse month) db = db ∧
    runOps (barChartOps parse month) db = db ∧
    runOps pieChartOps db = db ∧
    runOps (allDataOps parse month) db = db :=
  ⟨rfl, rfl, rfl, rfl, rfl⟩

/-- Claim C4: only the seed endpoint catches exceptions, answering 500
with the message of the exception whether the remote fetch or the
database writes fail; each of the other five endpoints propagates a
rejection of any of its awaited database calls unchanged. -/
theorem claim_only_seed_catches_errors :
    (∀ (e : String) (w : Except String Unit),
        seedResponse (.error e) w = ⟨500, e⟩)
    ∧ (∀ (d : List SeedItem) (e : String),
        seedResponse (.ok d) (.error e) = ⟨500, e⟩)
    ∧ (∀ (e : String), transactionsResponseE (.error e) = .error e)
    ∧ (∀ (e : String) (c1 c2 : Except String ℕ),
        statisticsResponseE (.error e) c1 c2 = .error e)
    ∧ (∀ (a : List ℚ) (e : String) (c2 : Except String ℕ),
        statisticsResponseE (.ok a) (.error e) c2 = .error e)
    ∧ (∀ (a : List ℚ) (s : ℕ) (e : String),
        statisticsResponseE (.ok a) (.ok s) (.error e) = .error e)
    ∧ (∀ (e : String) (rest : List (Except String ℕ)),
        barChartResponseE (.error e :: rest) = .error e)
    ∧ (∀ (e : String), pieChartResponseE (.error e) = .error e)
    ∧ (∀ (e : String) (agg : Except String (List ℚ)) (c1 c2 : Except String ℕ)
         (bc : List (Except String ℕ)) (cat : Except String (List (String × Nat))),
        allDataResponseE (.error e) agg c1 c2 bc cat = .error e)
    ∧ (∀ (ts : List Transaction) (a : List ℚ) (s n : ℕ) (e : String),
        allDataResponseE (.ok ts) (.ok a) (.ok s) (.ok n) [] (.error e) = .error e) :=
  ⟨fun _ _ => rfl, fun _ _ => rfl, fun _ => rfl, fun _ _ _ => rfl,
   fun _ _ _ => rfl, fun _ _ _ => rfl, fun _ _ => rfl, fun _ => rfl,
   fun _ _ _ _ _ _ => rfl, fun _ _ _ _ _ => rfl⟩

/-- Claim C5: for every month and database state the bar chart is a
fixed list of exactly ten entries with the labels 0-100 through
901-above in that order, each counting the records that match the month
filter and whose price lies in the corresponding fixed bucket
([0,100), [101,200), ..., [901, Number.MAX_VALUE)). -/
theorem claim_barchart_ten_buckets (parse : String → Int) (month : String)
    (db : Db) :
    getBarChart parse month db =
      [("0-100", countDocuments (fun t => monthQuery parse month t.dateOfSale &&
          (decide ((0 : ℚ) ≤ t.price) && decide (t.price < (100 : ℚ)))) db),
       ("101-200", countDocuments (fun t => monthQuery parse month t.dateOfSale &&
          (decide ((101 : ℚ) ≤ t.price) && decide (t.price < (200 : ℚ)))) db),
       ("201-300", countDocuments (fun t => monthQuery parse month t.dateOfSale &&
          (decide ((201 : ℚ) ≤ t.price) && decide (t.price < (300 : ℚ)))) db),
       ("301-400", countDocuments (fun t => monthQuery parse month t.dateOfSale &&
          (decide ((301 : ℚ) ≤ t.price) && decide (t.price < (400 : ℚ)))) db),
       ("401-500", countDocuments (fun t => monthQuery parse month t.dateOfSale &&
          (decide ((401 : ℚ) ≤ t.price) && decide (t.price < (500 : ℚ)))) db),
       ("501-600", countDocuments (fun t => monthQuery parse month t.dateOfSale &&
          (decide ((501 : ℚ) ≤ t.price) && decide (t.price < (600 : ℚ)))) db),
       ("601-700", countDocuments (fun t => monthQuery parse month t.dateOfSale &&
          (decide ((601 : ℚ) ≤ t.price) && decide (t.price < (700 : ℚ)))) db),
       ("701-800", countDocuments (fun t => monthQuery parse month t.dateOfSale &&
          (decide ((701 : ℚ) ≤ t.price) && decide (t.price < (800 : ℚ)))) db),
       ("801-900", countDocuments (fun t => monthQuery parse month t.dateOfSale &&
          (decide ((801 : ℚ) ≤ t.price) && decide (t.price < (900 : ℚ)))) db),
       ("901-above", countDocuments (fun t => monthQuery parse month t.dateOfSale &&
          (decide ((901 : ℚ) ≤ t.price) && decide (t.price < numberMaxValue))) db)] :=
  rfl

/-- Claim C6: the statistics response carries the sum of the prices of
the records matching the month filter, the count of matching sold
records, and the count of matching unsold records. -/
theorem claim_statistics_aggregates (parse : String → Int) (month : String)
    (db : Db) :
    (getStatistics parse month db).totalSaleAmount
      = ((db.filter (fun t => monthQuery parse month t.dateOfSale)).map
          (fun t => t.price)).sum
    ∧ (getStatistics parse month db).totalSoldItems
      = countDocuments (fun t => monthQuery parse month t.dateOfSale && t.sold) db
    ∧ (getStatistics parse month db).totalNotSoldItems
      = countDocuments (fun t => monthQuery parse month t.dateOfSale && !t.sold) db := by
  refine ⟨?_, rfl, rfl⟩
  show (aggregateSumPrice (fun t => monthQuery parse month t.dateOfSale) db).head?.getD 0 = _
  simp only [aggregateSumPrice]
  by_cases h : (db.filter (fun t => monthQuery parse month t.dateOfSale)).isEmpty
  · rw [if_pos h]
    rw [List.isEmpty_iff] at h
    rw [h]
    rfl
  · rw [if_neg h]
    rfl

/-- Claim C7: the transactions listing returns at most perPage records,
namely the records matching the month-and-search filter after skipping
the first (page - 1) * perPage of them, and absent parameters default
to page 1, perPage 10 and the empty search string. -/
theorem claim_transactions_pagination
    (rmatch : String → String → String → Bool) (parse : String → Int)
    (page perPage : ℕ) (search month : String) (db : Db)
    (hpage : 1 ≤ page) :
    (getTransactionsReq rmatch parse (some page) (some perPage) (some search)
        month db).length ≤ perPage
    ∧ getTransactionsReq rmatch parse (some page) (some perPage) (some search)
        month db
      = ((db.filter (transactionsQuery rmatch parse search month)).drop
          ((page - 1) * perPage)).take perPage
    ∧ getTransactionsReq rmatch parse none none none month db
      = getTransactions rmatch parse 1 10 "" month db := by
  refine ⟨?_, rfl, rfl⟩
  exact List.length_take_le _ _

/-- A concrete regex engine for witnesses: matches everything. -/
def rmatchEx : String → String → String → Bool := fun _ _ _ => true

/-- A concrete date parser for witnesses and counterexamples: the month
string m itself parses to 0, every other string (in particular
m-31T23:59:59.999Z) to 100. -/
def parseEx : String → Int := fun s => if s = "m" then 0 else 100

/-- A concrete stored record for witnesses and counterexamples. -/
def txEx : Transaction := ⟨"t", "d", 1, 5, "c", true⟩

theorem claim_transactions_pagination_witness :
    1 ≤ 2
    ∧ ((getTransactionsReq rmatchEx parseEx (some 2) (some 3) (some "a")
          "m" [txEx]).length ≤ 3
      ∧ getTransactionsReq rmatchEx parseEx (some 2) (some 3) (some "a")
          "m" [txEx]
        = (([txEx].filter (transactionsQuery rmatchEx parseEx "a" "m")).drop
            ((2 - 1) * 3)).take 3
      ∧ getTransactionsReq rmatchEx parseEx none none none "m" [txEx]
        = getTransactions rmatchEx parseEx 1 10 "" "m" [txEx]) :=
  ⟨by decide,
   claim_transactions_pagination rmatchEx parseEx 2 3 "a" "m" [txEx] (by decide)⟩

/-- Claim C10: the regex clause on the numeric price field never
matches, so for every non-empty search string the transactions filter
is the month filter conjoined with a match of the search string against
title or description only. -/
theorem claim_search_price_clause_dead
    (rmatch : String → String → String → Bool) (parse : String → Int)
    (search month : String) (t : Transaction) (hs : search ≠ "") :
    transactionsQuery rmatch parse search month t
      = (monthQuery parse month t.dateOfSale &&
          (rmatch search "i" t.title || rmatch search "i" t.description)) := by
  simp [transactionsQuery, regexFieldMatch, hs]

theorem claim_search_price_clause_dead_witness :
    "a" ≠ ""
    ∧ transactionsQuery rmatchEx parseEx "a" "m" txEx
      = (monthQuery parseEx "m" txEx.dateOfSale &&
          (rmatchEx "a" "i" txEx.title || rmatchEx "a" "i" txEx.description)) :=
  ⟨by decide,
   claim_search_price_clause_dead rmatchEx parseEx "a" "m" txEx (by decide)⟩

/-- Claim C1 counterexample: with a concrete date parser, month string
and database of one sold record dated between new Date(m) and
new Date(m-31T23:59:59.999Z), the statistics field of /alldata differs
from the response of /statistics (totalSoldItems is 1 against 0). -/
theorem claim_alldata_composite_counterexample :
    (getAllData parseEx "m" [txEx]).statistics
      ≠ getStatistics parseEx "m" [txEx] := by
  decide

/-- Claim C1 (amended): for every month and database state, the
transactions field of /alldata equals the listing of /transactions at
any page, perPage and search (both are empty, the month filter matching
nothing), its totalSaleAmount equals that of /statistics, and its
barChart and pieChart fields equal the responses of /barchart and
/piechart; the two sold counts are exempted, for they use the distinct
upper bound new Date(month + "-31T23:59:59.999Z") and can differ from
/statistics. -/
theorem claim_alldata_composite_amended
    (rmatch : String → String → String → Bool) (parse : String → Int)
    (month : String) (db : Db)
    (page? perPage? : Option ℕ) (search? : Option String) :
    (getAllData parse month db).transactions
      = getTransactionsReq rmatch parse page? perPage? search? month db
    ∧ (getAllData parse month db).statistics.totalSaleAmount
      = (getStatistics parse month db).totalSaleAmount
    ∧ (getAllData parse month db).barChart = getBarChart parse month db
    ∧ (getAllData parse month db).pieChart = getPieChart parse month db := by
  refine ⟨?_, rfl, rfl, rfl⟩
  show db.filter (fun t => monthQuery parse month t.dateOfSale) = _
  rw [month_filter_nil]
  show _ = ((db.filter (transactionsQuery rmatch parse (search?.getD "") month)).drop
      _).take _
  rw [filter_false_nil db _ (transactionsQuery_false rmatch parse (search?.getD "") month)]
  simp

/-- A price condition fails when the price is below the bucket minimum
or at least the bucket maximum. -/
theorem bucket_no_match (lo hi p : ℚ) (h : p < lo ∨ hi ≤ p) :
    (decide (lo ≤ p) && decide (p < hi)) = false := by
  rcases h with h | h <;> simp <;> intro h1 <;> linarith

/-- Claim C9 counterexample: the sum of the ten bar-chart counts is
never strictly less than the number of records matching the month
filter — that filter matches nothing, so the matching count is zero and
no natural number is below it. -/
theorem claim_barchart_undercount_counterexample :
    ¬ ∃ (parse : String → Int) (month : String) (db : Db),
      ((getBarChart parse month db).map (fun e => e.2)).sum
        < countDocuments (fun t => monthQuery parse month t.dateOfSale) db := by
  rintro ⟨parse, month, db, h⟩
  have h1 : countDocuments (fun t => monthQuery parse month t.dateOfSale) db = 0 := by
    simp [countDocuments, month_filter_nil]
  rw [h1] at h
  exact Nat.not_lt_zero _ h

/-- Claim C9 (amended): the ten price buckets are not exhaustive — any
price in a gap [100,101), [200,201), ..., [900,901), and any negative
price, satisfies the price condition of none of the ten bucket
queries — but since the month filter matches no record, every count and
the number of matching records are zero, so the sum of the ten returned
counts always equals (is never strictly less than) the number of
records matching the month filter. -/
theorem claim_barchart_buckets_not_exhaustive (p : ℚ)
    (hp : p < 0 ∨ (100 ≤ p ∧ p < 101) ∨ (200 ≤ p ∧ p < 201)
        ∨ (300 ≤ p ∧ p < 301) ∨ (400 ≤ p ∧ p < 401) ∨ (500 ≤ p ∧ p < 501)
        ∨ (600 ≤ p ∧ p < 601) ∨ (700 ≤ p ∧ p < 701) ∨ (800 ≤ p ∧ p < 801)
        ∨ (900 ≤ p ∧ p < 901)) :
    (∀ r ∈ priceRanges,
        (decide (r.2.1 ≤ p) && decide (p < r.2.2.getD numberMaxValue)) = false)
    ∧ ∀ (parse : String → Int) (month : String) (db : Db),
        ((getBarChart parse month db).map (fun e => e.2)).sum
          = countDocuments (fun t => monthQuery parse month t.dateOfSale) db := by
  constructor
  · intro r hr
    simp only [priceRanges, List.mem_cons, List.not_mem_nil, or_false] at hr
    rcases hr with rfl|rfl|rfl|rfl|rfl|rfl|rfl|rfl|rfl|rfl <;>
      refine bucket_no_match _ _ p ?_ <;>
      simp only [Option.getD_some, Option.getD_none] <;>
      rcases hp with h|⟨h1,h2⟩|⟨h1,h2⟩|⟨h1,h2⟩|⟨h1,h2⟩|⟨h1,h2⟩|⟨h1,h2⟩|⟨h1,h2⟩|⟨h1,h2⟩|⟨h1,h2⟩ <;>
      first
        | exact Or.inl (by linarith)
        | exact Or.inr (by linarith)
  · intro parse month db
    have hc : countDocuments (fun t => monthQuery parse month t.dateOfSale) db = 0 := by
      simp [countDocuments, month_filter_nil]
    rw [hc]
    simp [getBarChart, priceRanges, barChartEntry, countDocuments, monthAnd_filter_nil]

theorem claim_barchart_buckets_not_exhaustive_witness :
    (100 ≤ (100 : ℚ) ∧ (100 : ℚ) < 101)
    ∧ ((∀ r ∈ priceRanges,
          (decide (r.2.1 ≤ (100 : ℚ)) &&
            decide ((100 : ℚ) < r.2.2.getD numberMaxValue)) = false)
      ∧ ∀ (parse : String → Int) (month : String) (db : Db),
          ((getBarChart parse month db).map (fun e => e.2)).sum
            = countDocuments (fun t => monthQuery parse month t.dateOfSale) db) :=
  ⟨by norm_num,
   claim_barchart_buckets_not_exhaustive 100 (by norm_num)⟩
